import Mathlib

/-!
Verification development for the Nova Sonic streaming session bridge
(src/app/nova_sonic.py and src/app/websocket_handler.py).

The Python session object is embedded as an explicit state record
(SessionState) and every coroutine that the claims touch becomes a pure
function from state (plus inputs) to state plus the lists of produced
effects: events put on the output queue (OutEvent) and protocol events
written to the transport (ProtoEvent).  Byte strings are lists of Nat,
JSON-serializable Python values are the inductive PyVal, and the
json.dumps / base64 library calls are implemented directly.
-/

namespace NovaSonic

/-- Python values that the tool handler can return, restricted to the
JSON-serializable shapes json.dumps accepts.  pstr is a str, pint an int,
pbool a bool, pnone is None, plist a list, pdict a dict with str keys. -/
inductive PyVal where
  | pstr (s : String)
  | pint (n : Int)
  | pbool (b : Bool)
  | pnone
  | plist (xs : List PyVal)
  | pdict (fields : List (String × PyVal))

/-- Four lowercase hex digits of n, as used by the JSON \u escape. -/
def hex4 (n : Nat) : String :=
  let d := fun k => (Nat.digitChar (n / k % 16))
  String.mk [d 4096, d 256, d 16, d 1]

/-- Escape one character the way json.dumps (ensure_ascii=True) does for
characters of the Basic Multilingual Plane. -/
def jsonEscapeChar (c : Char) : String :=
  if c = '"' then "\\\""
  else if c = '\\' then "\\\\"
  else if c = '\n' then "\\n"
  else if c = '\t' then "\\t"
  else if c = '\r' then "\\r"
  else if c.toNat = 8 then "\\b"
  else if c.toNat = 12 then "\\f"
  else if c.toNat < 32 then "\\u" ++ hex4 c.toNat
  else if c.toNat > 126 then "\\u" ++ hex4 c.toNat
  else String.singleton c

/-- JSON string-body escaping of json.dumps. -/
def jsonEscape (s : String) : String :=
  String.join (s.toList.map jsonEscapeChar)

mutual

/-- Python json.dumps with the default separators: objects as
\x7b"k": v, "k2": v2\x7d and arrays as [v, v2]. -/
def dumps : PyVal → String
  | .pstr s => "\"" ++ jsonEscape s ++ "\""
  | .pint n => toString n
  | .pbool true => "true"
  | .pbool false => "false"
  | .pnone => "null"
  | .plist xs => "[" ++ dumpsList xs ++ "]"
  | .pdict fs => "\x7b" ++ dumpsFields fs ++ "\x7d"

/-- Comma-separated json.dumps of the elements of a Python list. -/
def dumpsList : List PyVal → String
  | [] => ""
  | [x] => dumps x
  | x :: y :: rest => dumps x ++ ", " ++ dumpsList (y :: rest)

/-- Comma-separated json.dumps of the key/value pairs of a Python dict. -/
def dumpsFields : List (String × PyVal) → String
  | [] => ""
  | [(k, v)] => "\"" ++ jsonEscape k ++ "\": " ++ dumps v
  | (k, v) :: p :: rest =>
      "\"" ++ jsonEscape k ++ "\": " ++ dumps v ++ ", " ++ dumpsFields (p :: rest)

end

mutual

/-- Python repr() of a PyVal (str values without inner escaping, which is
all the code paths under verification ever feed it). -/
def pyRepr : PyVal → String
  | .pstr s => "\x27" ++ s ++ "\x27"
  | .pint n => toString n
  | .pbool true => "True"
  | .pbool false => "False"
  | .pnone => "None"
  | .plist xs => "[" ++ pyReprList xs ++ "]"
  | .pdict fs => "\x7b" ++ pyReprFields fs ++ "\x7d"

/-- Comma-separated repr of list elements. -/
def pyReprList : List PyVal → String
  | [] => ""
  | [x] => pyRepr x
  | x :: y :: rest => pyRepr x ++ ", " ++ pyReprList (y :: rest)

/-- Comma-separated repr of dict items. -/
def pyReprFields : List (String × PyVal) → String
  | [] => ""
  | [(k, v)] => "\x27" ++ k ++ "\x27: " ++ pyRepr v
  | (k, v) :: p :: rest =>
      "\x27" ++ k ++ "\x27: " ++ pyRepr v ++ ", " ++ pyReprFields (p :: rest)

end

/-- Python str() of a PyVal: identity on str, True/False/None spellings,
decimal for int, repr for containers. -/
def pyStr : PyVal → String
  | .pstr s => s
  | .pint n => toString n
  | .pbool true => "True"
  | .pbool false => "False"
  | .pnone => "None"
  | .plist xs => pyRepr (.plist xs)
  | .pdict fs => pyRepr (.pdict fs)

/-- The standard base64 alphabet. -/
def b64Alphabet : List Char :=
  "ABCDEFGHIJKLMNOPQRSTUVWXYZabcdefghijklmnopqrstuvwxyz0123456789+/".toList

/-- Character for one 6-bit group. -/
def b64Char (n : Nat) : Char := b64Alphabet.getD n 'A'

/-- base64.b64encode on a byte list (each Nat < 256), with = padding. -/
def b64encode : List Nat → List Char
  | [] => []
  | [a] => [b64Char (a / 4), b64Char (a % 4 * 16), '=', '=']
  | [a, b] => [b64Char (a / 4), b64Char (a % 4 * 16 + b / 16), b64Char (b % 16 * 4), '=']
  | a :: b :: c :: rest =>
      b64Char (a / 4) :: b64Char (a % 4 * 16 + b / 16) ::
      b64Char (b % 16 * 4 + c / 64) :: b64Char (c % 64) :: b64encode rest

/-- Index of a character in the base64 alphabet. -/
def b64Index (c : Char) : Nat := b64Alphabet.indexOf c

/-- Decode a list of 6-bit values into bytes. -/
def b64decodeCore : List Nat → List Nat
  | a :: b :: c :: d :: rest =>
      (a * 4 + b / 16) :: (b % 16 * 16 + c / 4) :: (c % 4 * 64 + d) :: b64decodeCore rest
  | [a, b] => [a * 4 + b / 16]
  | [a, b, c] => [a * 4 + b / 16, b % 16 * 16 + c / 4]
  | _ => []

/-- base64.b64decode on a well-formed base64 character list. -/
def b64decode (cs : List Char) : List Nat :=
  b64decodeCore ((cs.filter (fun c => c ≠ '=')).map b64Index)

/-- Python substring containment: needle in hay. -/
def containsSub (needle : List Char) : List Char → Bool
  | [] => needle.isEmpty
  | c :: t => needle.isPrefixOf (c :: t) || containsSub needle t

/-- The pending tool invocation self._pending_tool: captured toolName,
toolUseId and content payload of a toolUse event. -/
structure PendingTool where
  name : String
  id : String
  content : String
deriving DecidableEq

/-- The mutable state of one NovaSonicSession.  stream models whether
self._stream is set, responseTask / audioSenderTask whether the two
background tasks exist, counter is the supply of fresh uuid4 content
names, and the remaining fields mirror the Python attributes of the
same spelling. -/
structure SessionState where
  toolSpecs : List String
  voiceId : String
  systemPrompt : String
  greetingPrompt : String
  promptName : String
  audioContentName : String
  stream : Bool
  isActive : Bool
  responseTask : Bool
  audioSenderTask : Bool
  genStage : Option String
  role : Option String
  pendingTool : Option PendingTool
  counter : Nat
deriving DecidableEq

/-- NovaSonicSession.__init__: no stream, inactive, no tasks, stage and
role unset, no pending tool. -/
def initSession (toolSpecs : List String) (voiceId systemPrompt greetingPrompt
    promptName audioContentName : String) : SessionState :=
  { toolSpecs := toolSpecs
    voiceId := voiceId
    systemPrompt := systemPrompt
    greetingPrompt := greetingPrompt
    promptName := promptName
    audioContentName := audioContentName
    stream := false
    isActive := false
    responseTask := false
    audioSenderTask := false
    genStage := none
    role := none
    pendingTool := none
    counter := 0 }

/-- Deterministic stand-in for the uuid.uuid4() content-name supply. -/
def freshName (n : Nat) : String := "uuid-" ++ toString n

/-- Protocol events the session writes to the transport, with the payload
fields the code fills in (json framing elided). -/
inductive ProtoEvent where
  | sessionStart
  | promptStart (promptName voiceId : String) (tools : List String)
  | contentStartText (promptName contentName roleName : String) (interactive : Bool)
  | contentStartAudio (promptName contentName roleName : String) (interactive : Bool)
  | contentStartTool (promptName contentName toolUseId : String)
  | textInput (promptName contentName content : String)
  | toolResult (promptName contentName content : String)
  | audioInput (promptName contentName content : String)
  | contentEndEv (promptName contentName : String)
  | promptEnd (promptName : String)
  | sessionEnd
deriving DecidableEq

/-- NovaSonicSession._send_event: the event reaches the transport only
when the stream exists and the session is still active; otherwise the
call returns having sent nothing. -/
def send_event (s : SessionState) (e : ProtoEvent) : List ProtoEvent :=
  if s.stream && s.isActive then [e] else []

/-- Events the session pushes onto its output queue for the forwarder. -/
inductive OutEvent where
  | audio (data : List Nat)
  | transcriptUser (text : String)
  | transcriptAi (text : String)
  | thinking
  | speaking
  | bargeIn
  | toolUseOut (tool : String)
  | done
  | errorOut (text : String)
deriving DecidableEq

/-- Decoded additionalModelFields of a contentStart transport event:
absent covers a missing key and the empty string (both falsy), malformed
a string json.loads rejects, fields a parsed object with or without a
generationStage key. -/
inductive AdditionalFields where
  | absent
  | malformed
  | fields (generationStage : Option String)
deriving DecidableEq

/-- Transport events decoded from the stream, restricted to the fields
_process_responses reads.  Option String fields are keys that may be
missing from the payload. -/
inductive TransportEvent where
  | audioOutput (content : String)
  | textOutput (content : String) (roleField : Option String)
  | contentStart (typeField : String) (roleField : Option String)
      (additional : AdditionalFields)
  | toolUse (toolName toolUseId content : String)
  | contentEnd (typeField : String) (promptNameField : Option String)
  | usageEvent
  | completionStart
  | completionEnd
  | unknown (name : String)
deriving DecidableEq

/-- The external tool handler: none models self.tool_handler = None, and
an Except.error result models the coroutine raising with that message. -/
def ToolHandler : Type := Option (String → String → Except String PyVal)

/-- The result value after the handler call of _handle_tool_result:
the "no result" default when there is no handler, the returned value on
success, and the error dict built from str(e) when the handler raises. -/
def toolCallResult (handler : ToolHandler) (name content : String) : PyVal :=
  match handler with
  | none => .pstr "no result"
  | some h =>
      match h name content with
      | .ok r => r
      | .error e => .pdict [("error", .pstr e)]

/-- The isinstance chain of _handle_tool_result turning the result into
the application/json string sent as toolResult content. -/
def resultToJson : PyVal → String
  | .pdict fs => dumps (.pdict fs)
  | .pstr s => dumps (.pdict [("result", .pstr s)])
  | v => dumps (.pdict [("result", .pstr (pyStr v))])

/-- The toolResult content string produced for a given handler and
invocation, combining the call outcome with the serialization step. -/
def toolResultJson (handler : ToolHandler) (name content : String) : String :=
  resultToJson (toolCallResult handler name content)

/-- NovaSonicSession._handle_tool_result: pop the pending invocation,
call the handler (exceptions become an error dict), serialize, then send
contentStart (TOOL, tagged with the stored toolUseId), toolResult and
contentEnd under a fresh content name. -/
def handle_tool_result (handler : ToolHandler) (s : SessionState)
    (promptName : String) : SessionState × List ProtoEvent :=
  let tool := s.pendingTool
  let s := { s with pendingTool := none }
  match tool with
  | none => (s, [])
  | some t =>
      let resultJson := toolResultJson handler t.name t.content
      let contentName := freshName s.counter
      let s := { s with counter := s.counter + 1 }
      (s, send_event s (.contentStartTool promptName contentName t.id) ++
          send_event s (.toolResult promptName contentName resultJson) ++
          send_event s (.contentEndEv promptName contentName))

/-- Result of one listener step or run: the new session state, the
events pushed onto the output queue, and the protocol events written to
the transport, in order. -/
structure StepOut where
  state : SessionState
  outputs : List OutEvent
  sent : List ProtoEvent
deriving DecidableEq

/-- The in-band barge-in marker _process_responses looks for inside
textOutput content. -/
def interruptedMarker : String := "\x7b \"interrupted\" : true \x7d"

/-- The event dispatch of one iteration of _process_responses, for a
decoded transport event. -/
def processEvent (handler : ToolHandler) (s : SessionState) :
    TransportEvent → StepOut
  | .audioOutput content =>
      if content ≠ "" then ⟨s, [.audio (b64decode content.toList)], []⟩
      else ⟨s, [], []⟩
  | .textOutput content roleField =>
      let text := content
      let roleVal := roleField.getD "ASSISTANT"
      if text ≠ "" then
        if containsSub interruptedMarker.toList text.toList then ⟨s, [.bargeIn], []⟩
        else if roleVal = "USER" then
          if s.genStage = some "FINAL" then ⟨s, [.transcriptUser text], []⟩
          else ⟨s, [], []⟩
        else if roleVal = "ASSISTANT" then
          if s.genStage = some "SPECULATIVE" then ⟨s, [.transcriptAi text], []⟩
          else ⟨s, [], []⟩
        else ⟨s, [], []⟩
      else ⟨s, [], []⟩
  | .contentStart typeField roleField additional =>
      let contentType := typeField
      let roleVal := roleField.getD ""
      let stage :=
        match additional with
        | .absent => "FINAL"
        | .malformed => "FINAL"
        | .fields g => g.getD "FINAL"
      let s := { s with role := some roleVal, genStage := some stage }
      if contentType = "AUDIO" ∧ roleVal = "ASSISTANT" then ⟨s, [.speaking], []⟩
      else if contentType = "TEXT" ∧ roleVal = "ASSISTANT" then
        if stage = "SPECULATIVE" then ⟨s, [.thinking], []⟩ else ⟨s, [], []⟩
      else ⟨s, [], []⟩
  | .toolUse toolName toolUseId content =>
      ⟨{ s with pendingTool := some ⟨toolName, toolUseId, content⟩ },
       [.toolUseOut toolName], []⟩
  | .contentEnd typeField promptNameField =>
      if typeField = "TOOL" ∧ s.pendingTool.isSome then
        let r := handle_tool_result handler s (promptNameField.getD s.promptName)
        ⟨r.1, [], r.2⟩
      else ⟨s, [], []⟩
  | .usageEvent => ⟨s, [], []⟩
  | .completionStart => ⟨s, [], []⟩
  | .completionEnd => ⟨s, [], []⟩
  | .unknown _ => ⟨s, [], []⟩

/-- One thing the wait/receive of a listener iteration can yield: a
timeout of the bounded wait, a cancellation, the stream ending
(StopAsyncIteration), an unexpected exception, a response chunk without
usable bytes, decoded json without an event key, or a decoded event. -/
inductive LoopItem where
  | timeout
  | cancelled
  | stopIteration
  | exn (msg : String)
  | emptyResponse
  | nonEventData
  | ev (e : TransportEvent)

/-- The while-loop of _process_responses over the finite trace of what
its awaits yield: timeouts and unusable responses continue, cancellation,
stream end and unexpected exceptions break, and events are dispatched. -/
def listenerLoop (handler : ToolHandler) : SessionState → List LoopItem → StepOut
  | s, [] => ⟨s, [], []⟩
  | s, item :: rest =>
      if s.isActive then
        match item with
        | .timeout => listenerLoop handler s rest
        | .emptyResponse => listenerLoop handler s rest
        | .nonEventData => listenerLoop handler s rest
        | .cancelled => ⟨s, [], []⟩
        | .stopIteration => ⟨s, [], []⟩
        | .exn _ => ⟨s, [], []⟩
        | .ev e =>
            let step := processEvent handler s e
            let r := listenerLoop handler step.state rest
            ⟨r.state, step.outputs ++ r.outputs, step.sent ++ r.sent⟩
      else ⟨s, [], []⟩

/-- NovaSonicSession._process_responses: run the listener loop to
completion, then deactivate the session and push the terminal done
event onto the output queue. -/
def process_responses (handler : ToolHandler) (s : SessionState)
    (items : List LoopItem) : StepOut :=
  let r := listenerLoop handler s items
  ⟨{ r.state with isActive := false }, r.outputs ++ [.done], r.sent⟩

/-- NovaSonicSession.send_audio: a no-op when the session is inactive,
otherwise base64-encode the chunk and append it to the inbound audio
queue (modelled as the list of queued encoded strings, FIFO). -/
def send_audio (s : SessionState) (queue : List String) (pcmBytes : List Nat) :
    List String :=
  if s.isActive then queue ++ [String.mk (b64encode pcmBytes)] else queue

/-- One full drain of the queue by _process_audio_queue while the state
stays s: each popped chunk is re-checked against the active flag and then
written as an audioInput event through _send_event. -/
def process_audio_queue (s : SessionState) : List String → List ProtoEvent
  | [] => []
  | b64 :: rest =>
      (if s.isActive then
        send_event s (.audioInput s.promptName s.audioContentName b64)
       else []) ++ process_audio_queue s rest

/-- The observable outcome of NovaSonicSession.close: the state it
leaves behind, the protocol events that actually reached the transport,
whether the raw input stream was closed, and which of the two background
tasks were cancelled. -/
structure CloseResult where
  state : SessionState
  sent : List ProtoEvent
  streamClosed : Bool
  cancelledResponse : Bool
  cancelledAudio : Bool
deriving DecidableEq

/-- NovaSonicSession.close: remember was_active, clear the active flag,
then (when it was active) attempt contentEnd on the audio block,
promptEnd and sessionEnd through _send_event inside a try that swallows
every exception, close and drop the stream if present, and cancel and
await whichever background tasks exist. -/
def close (s : SessionState) : CloseResult :=
  let wasActive := s.isActive
  let s1 := { s with isActive := false }
  let sent :=
    if wasActive then
      send_event s1 (.contentEndEv s1.promptName s1.audioContentName) ++
      send_event s1 (.promptEnd s1.promptName) ++
      send_event s1 .sessionEnd
    else []
  let streamClosed := s1.stream
  let s2 := { s1 with stream := false }
  let cancelledResponse := s2.responseTask
  let cancelledAudio := s2.audioSenderTask
  let s3 := { s2 with responseTask := false, audioSenderTask := false }
  ⟨s3, sent, streamClosed, cancelledResponse, cancelledAudio⟩

/-- The AWS credential environment read by start(): empty strings model
unset variables (both are falsy in the Python check). -/
structure Creds where
  awsAccessKeyId : String
  awsSecretAccessKey : String
  awsSessionToken : String
deriving DecidableEq

/-- The Python exception classes relevant to start(). -/
inductive PyError where
  | runtimeError (msg : String)
  | connectionError (msg : String)
deriving DecidableEq

/-- Whether an exception value is a ConnectionError. -/
def PyError.isConnectionErr : PyError → Bool
  | .connectionError _ => true
  | _ => false

/-- Whether a start() outcome is a raised ConnectionError. -/
def raisedConnectionErr : Except PyError (SessionState × List ProtoEvent) → Bool
  | .error e => e.isConnectionErr
  | .ok _ => false

/-- NovaSonicSession.start: raise RuntimeError when either credential is
missing (before the client or stream is created, the active flag is set,
or the background tasks start); otherwise open the stream, activate,
start both tasks, and send the init sequence — sessionStart, promptStart,
the SYSTEM text block, the greeting USER text block, and the long-lived
audio contentStart. -/
def start (creds : Creds) (s : SessionState) :
    Except PyError (SessionState × List ProtoEvent) :=
  if creds.awsAccessKeyId = "" ∨ creds.awsSecretAccessKey = "" then
    .error (.runtimeError
      "AWS_ACCESS_KEY_ID and AWS_SECRET_ACCESS_KEY must be set in .env or environment")
  else
    let s := { s with stream := true, isActive := true,
                      responseTask := true, audioSenderTask := true }
    let systemContent := freshName s.counter
    let s := { s with counter := s.counter + 1 }
    let greetingContent := freshName s.counter
    let s := { s with counter := s.counter + 1 }
    let events :=
      send_event s .sessionStart ++
      send_event s (.promptStart s.promptName s.voiceId s.toolSpecs) ++
      send_event s (.contentStartText s.promptName systemContent "SYSTEM" true) ++
      send_event s (.textInput s.promptName systemContent s.systemPrompt) ++
      send_event s (.contentEndEv s.promptName systemContent) ++
      send_event s (.contentStartText s.promptName greetingContent "USER" true) ++
      send_event s (.textInput s.promptName greetingContent s.greetingPrompt) ++
      send_event s (.contentEndEv s.promptName greetingContent) ++
      send_event s (.contentStartAudio s.promptName s.audioContentName "USER" true)
    .ok (s, events)

end NovaSonic

namespace WebsocketHandler

/-- np.linspace start..stop with num points: empty for num = 0, the
start point alone for num = 1, and evenly spaced points including both
endpoints otherwise, here over the rationals. -/
def linspace (start stop : ℚ) (num : Nat) : List ℚ :=
  if num = 0 then []
  else if num = 1 then [start]
  else (List.range num).map
    (fun i : ℕ => start + (stop - start) * (i : ℚ) / ((num : ℚ) - 1))

/-- np.interp at one point x against the sample points 0, 1, ..., n-1
(np.arange of the buffer length) with values fp: clamp below 0 and above
n-1, linear interpolation between the two neighbouring integers inside.
Only called with fp nonempty; np.interp raises ValueError on an empty
sample-point array (see resample_24k_to_16k). -/
def interpArange (fp : List Int) (x : ℚ) : ℚ :=
  match fp with
  | [] => 0
  | f0 :: _ =>
      let n := fp.length
      if x ≤ 0 then (f0 : ℚ)
      else if ((n : ℚ) - 1) ≤ x then (fp.getLastD f0 : ℚ)
      else
        let j := (⌊x⌋).toNat
        let a := ((fp.getD j 0 : Int) : ℚ)
        let b := ((fp.getD (j + 1) 0 : Int) : ℚ)
        a + (b - a) * (x - (j : ℚ))

/-- numpy astype to a signed integer type truncates toward zero; the
interpolated values here are convex combinations of int16 samples, so
they stay inside the int16 range and no wrapping occurs. -/
def truncToInt (q : ℚ) : Int :=
  if 0 ≤ q then ⌊q⌋ else -⌊-q⌋

/-- resample_24k_to_16k over the int16 samples of the input buffer
(np.frombuffer pairs the little-endian bytes two at a time; that
(de)serialization is elided and lengths here count samples, not bytes).
out_len is int(len(samples) * (16000 / 24000)); for every list length
the float computation truncates to exactly the rational floor modelled
by natural division, because the double nearest 2/3 is below 2/3 by less
than half an ulp of any product involved.  np.interp is then called with
np.arange(len(samples)) as sample points, which raises ValueError when
the input is empty — modelled as none. -/
def resample_24k_to_16k (samples : List Int) : Option (List Int) :=
  let outLen := samples.length * 16000 / 24000
  if samples.length = 0 then none
  else
    some (((linspace 0 ((samples.length : ℚ) - 1) outLen).map
      (interpArange samples)).map truncToInt)

end WebsocketHandler

namespace NovaSonic

/-- A session as it stands mid-conversation: stream open, active, both
background tasks running, tracked stage FINAL. -/
def sampleFinalState : SessionState :=
  { initSession [] "tiffany" "sys" "greet" "prompt-1" "audio-1" with
      stream := true, isActive := true, responseTask := true,
      audioSenderTask := true, genStage := some "FINAL" }

/-- Same session but with tracked stage SPECULATIVE. -/
def sampleSpecState : SessionState :=
  { sampleFinalState with genStage := some "SPECULATIVE" }

/-- C1: for a textOutput event with non-empty text that does not contain
the interrupt marker, a USER-role event yields a transcript_user output
exactly when the tracked generation stage is FINAL, and an
ASSISTANT-role event yields a transcript_ai output exactly when the
tracked stage is SPECULATIVE. -/
theorem c1_transcript_dedup (handler : ToolHandler) (s : SessionState)
    (text : String) (hne : text ≠ "")
    (hmk : containsSub interruptedMarker.toList text.toList = false) :
    ((processEvent handler s (.textOutput text (some "USER"))).outputs =
      if s.genStage = some "FINAL" then [OutEvent.transcriptUser text] else []) ∧
    ((processEvent handler s (.textOutput text (some "ASSISTANT"))).outputs =
      if s.genStage = some "SPECULATIVE" then [OutEvent.transcriptAi text] else []) := by
  have hmk' : containsSub interruptedMarker.data text.data = false := hmk
  constructor
  · by_cases hg : s.genStage = some "FINAL" <;>
      simp [processEvent, hne, hmk', hg]
  · by_cases hg : s.genStage = some "SPECULATIVE" <;>
      simp [processEvent, hne, hmk', hg]

/-- Witness for C1 at stage FINAL and stage SPECULATIVE on the text
"hello": user text surfaces at FINAL only, assistant text at
SPECULATIVE only. -/
theorem c1_transcript_dedup_witness :
    ((processEvent (none : ToolHandler) sampleFinalState
        (.textOutput "hello" (some "USER"))).outputs =
      [OutEvent.transcriptUser "hello"]) ∧
    ((processEvent (none : ToolHandler) sampleFinalState
        (.textOutput "hello" (some "ASSISTANT"))).outputs = []) ∧
    ((processEvent (none : ToolHandler) sampleSpecState
        (.textOutput "hello" (some "USER"))).outputs = []) ∧
    ((processEvent (none : ToolHandler) sampleSpecState
        (.textOutput "hello" (some "ASSISTANT"))).outputs =
      [OutEvent.transcriptAi "hello"]) := by
  have hf := c1_transcript_dedup (none : ToolHandler) sampleFinalState "hello"
    (by decide) (by decide)
  have hs := c1_transcript_dedup (none : ToolHandler) sampleSpecState "hello"
    (by decide) (by decide)
  refine ⟨?_, ?_, ?_, ?_⟩
  · simpa [sampleFinalState, initSession] using hf.1
  · simpa [sampleFinalState, initSession] using hf.2
  · simpa [sampleSpecState, sampleFinalState, initSession] using hs.1
  · simpa [sampleSpecState, sampleFinalState, initSession] using hs.2

/-- C10: a non-empty textOutput containing the literal interrupt marker
produces a single barge_in output and no transcript, for every role
field and tracked stage, leaving the state unchanged. -/
theorem c10_barge_in_priority (handler : ToolHandler) (s : SessionState)
    (text : String) (roleField : Option String) (hne : text ≠ "")
    (hmk : containsSub interruptedMarker.toList text.toList = true) :
    processEvent handler s (.textOutput text roleField) =
      ⟨s, [OutEvent.bargeIn], []⟩ := by
  have hmk' : containsSub interruptedMarker.data text.data = true := hmk
  simp [processEvent, hne, hmk']

/-- Witness for C10: the marker itself, arriving with role USER while
the tracked stage is FINAL, yields barge_in rather than a user
transcript. -/
theorem c10_barge_in_priority_witness :
    processEvent (none : ToolHandler) sampleFinalState
      (.textOutput interruptedMarker (some "USER")) =
      ⟨sampleFinalState, [OutEvent.bargeIn], []⟩ :=
  c10_barge_in_priority (none : ToolHandler) sampleFinalState interruptedMarker
    (some "USER") (by decide) (by decide)

/-- C9: while the session is active, a timeout of the bounded wait makes
the listener loop retry: processing continues with the remaining trace,
the session stays active, and nothing is emitted or sent for the
timeout. -/
theorem c9_timeout_retries (handler : ToolHandler) (s : SessionState)
    (rest : List LoopItem) (hact : s.isActive = true) :
    listenerLoop handler s (.timeout :: rest) = listenerLoop handler s rest ∧
    (listenerLoop handler s [.timeout]).state.isActive = true ∧
    (listenerLoop handler s [.timeout]).outputs = [] ∧
    (listenerLoop handler s [.timeout]).sent = [] := by
  refine ⟨?_, ?_, ?_, ?_⟩ <;> simp [listenerLoop, hact]

/-- Witness for C9 on a live session and a trace continuing with the
stream ending. -/
theorem c9_timeout_retries_witness :
    listenerLoop (none : ToolHandler) sampleFinalState
        [LoopItem.timeout, LoopItem.stopIteration] =
      listenerLoop (none : ToolHandler) sampleFinalState [LoopItem.stopIteration] ∧
    (listenerLoop (none : ToolHandler) sampleFinalState [LoopItem.timeout]).state.isActive
      = true :=
  have h := c9_timeout_retries (none : ToolHandler) sampleFinalState
    [LoopItem.stopIteration] rfl
  ⟨h.1, h.2.1⟩

/-- The event dispatch of the listener never pushes a done event; only
the epilogue after the loop does. -/
theorem processEvent_no_done (handler : ToolHandler) (s : SessionState)
    (e : TransportEvent) : OutEvent.done ∉ (processEvent handler s e).outputs := by
  cases e <;> simp only [processEvent] <;>
    (repeat' split) <;> simp [handle_tool_result]

/-- No iteration of the listener loop pushes a done event. -/
theorem listenerLoop_no_done (handler : ToolHandler) :
    ∀ (items : List LoopItem) (s : SessionState),
      OutEvent.done ∉ (listenerLoop handler s items).outputs := by
  intro items
  induction items with
  | nil => intro s; simp [listenerLoop]
  | cons item rest ih =>
      intro s
      simp only [listenerLoop]
      split
      · cases item <;> simp [ih]
        exact fun h => processEvent_no_done handler s _ h
      · simp

/-- C4: however the listener loop ends — cancellation, stream end,
unexpected exception, or an exhausted trace — _process_responses leaves
the session inactive and pushes exactly one done event, as the last
element of the output stream. -/
theorem c4_terminal_done (handler : ToolHandler) (s : SessionState)
    (items : List LoopItem) :
    (process_responses handler s items).state.isActive = false ∧
    ((process_responses handler s items).outputs).count OutEvent.done = 1 ∧
    ((process_responses handler s items).outputs).getLast? = some OutEvent.done := by
  refine ⟨rfl, ?_, ?_⟩
  · simp [process_responses, List.count_append,
      List.count_eq_zero_of_not_mem (listenerLoop_no_done handler items s)]
  · simp [process_responses]

/-- A handler that always raises, for exercising the error path. -/
def failingHandler : ToolHandler := some fun _ _ => .error "boom"

/-- A live session with a pending askAgent invocation recorded. -/
def pendingToolState : SessionState :=
  { sampleFinalState with
      pendingTool := some ⟨"askAgent", "tu-1", "args"⟩ }

/-- C2: a toolUse event records the pending invocation, and a TOOL
contentEnd arriving while one is pending injects exactly one tool
result — a TOOL contentStart tagged with the stored toolUseId, one
toolResult carrying the serialized handler result, one contentEnd —
clears the pending invocation, and a further TOOL contentEnd injects
nothing; when the handler raises, the injected payload serializes the
error dict. -/
theorem c2_tool_roundtrip (handler : ToolHandler) (s : SessionState)
    (name id args : String) (pn : Option String)
    (hact : s.isActive = true) (hstr : s.stream = true)
    (hpend : s.pendingTool = some ⟨name, id, args⟩) :
    ((processEvent handler s (.toolUse name id args)).state.pendingTool =
       some ⟨name, id, args⟩) ∧
    ((processEvent handler s (.toolUse name id args)).outputs =
       [OutEvent.toolUseOut name]) ∧
    (processEvent handler s (.contentEnd "TOOL" pn)).sent =
      [ProtoEvent.contentStartTool (pn.getD s.promptName) (freshName s.counter) id,
       ProtoEvent.toolResult (pn.getD s.promptName) (freshName s.counter)
         (toolResultJson handler name args),
       ProtoEvent.contentEndEv (pn.getD s.promptName) (freshName s.counter)] ∧
    (processEvent handler s (.contentEnd "TOOL" pn)).outputs = [] ∧
    (processEvent handler s (.contentEnd "TOOL" pn)).state.pendingTool = none ∧
    (processEvent handler (processEvent handler s (.contentEnd "TOOL" pn)).state
        (.contentEnd "TOOL" pn)).sent = [] ∧
    (processEvent handler (processEvent handler s (.contentEnd "TOOL" pn)).state
        (.contentEnd "TOOL" pn)).outputs = [] ∧
    (∀ (h : String → String → Except String PyVal) (msg : String),
       handler = some h → h name args = Except.error msg →
       toolResultJson handler name args =
         dumps (.pdict [("error", .pstr msg)])) := by
  refine ⟨?_, ?_, ?_, ?_, ?_, ?_, ?_, ?_⟩
  · simp [processEvent]
  · simp [processEvent]
  · simp [processEvent, handle_tool_result, hpend, send_event, hact, hstr]
  · simp [processEvent, handle_tool_result, hpend]
  · simp [processEvent, handle_tool_result, hpend]
  · simp [processEvent, handle_tool_result, hpend]
  · simp [processEvent, handle_tool_result, hpend]
  · intro h msg hh hrun
    subst hh
    simp [toolResultJson, toolCallResult, hrun, resultToJson]

/-- Witness for C2: with a pending invocation and a handler that raises,
the TOOL contentEnd injects the three correlated events whose payload is
the serialized error dict, and a second TOOL contentEnd injects
nothing. -/
theorem c2_tool_roundtrip_witness :
    (processEvent failingHandler pendingToolState (.contentEnd "TOOL" none)).sent =
      [ProtoEvent.contentStartTool "prompt-1" (freshName 0) "tu-1",
       ProtoEvent.toolResult "prompt-1" (freshName 0)
         (dumps (.pdict [("error", .pstr "boom")])),
       ProtoEvent.contentEndEv "prompt-1" (freshName 0)] ∧
    (processEvent failingHandler
        (processEvent failingHandler pendingToolState (.contentEnd "TOOL" none)).state
        (.contentEnd "TOOL" none)).sent = [] := by
  have h := c2_tool_roundtrip failingHandler pendingToolState "askAgent" "tu-1"
    "args" none rfl rfl rfl
  have hjson := h.2.2.2.2.2.2.2 (fun _ _ => .error "boom") "boom" rfl rfl
  refine ⟨?_, h.2.2.2.2.2.1⟩
  rw [h.2.2.1, hjson]
  simp [pendingToolState, sampleFinalState, initSession]

/-- A live session with an open stream and both tasks running. -/
def liveSession : SessionState :=
  { initSession ["askAgentSpec"] "tiffany" "sys" "greet" "prompt-1" "audio-1" with
      stream := true, isActive := true, responseTask := true,
      audioSenderTask := true }

/-- C3: close never writes the graceful-shutdown events.  close clears
the active flag before calling _send_event, whose guard returns when the
session is no longer active, so the contentEnd, promptEnd and sessionEnd
of the comment in close are silently dropped; the concrete live session
shows the stream being released with zero protocol events sent. -/
theorem c3_close_sends_nothing :
    (∀ s : SessionState, (close s).sent = []) ∧
    liveSession.isActive = true ∧ liveSession.stream = true ∧
    (close liveSession).sent = [] ∧
    (close liveSession).streamClosed = true := by
  refine ⟨?_, rfl, rfl, ?_, rfl⟩
  · intro s; simp [close, send_event]
  · simp [close, send_event]

/-- C6: the second of two consecutive close calls changes nothing and
performs none of the shutdown, stream-release or task-cancellation
work, and close on a session that was never started is a complete
no-op. -/
theorem c6_close_idempotent (s : SessionState) :
    (close (close s).state).state = (close s).state ∧
    (close (close s).state).sent = [] ∧
    (close (close s).state).streamClosed = false ∧
    (close (close s).state).cancelledResponse = false ∧
    (close (close s).state).cancelledAudio = false ∧
    (s.isActive = false → s.stream = false → s.responseTask = false →
      s.audioSenderTask = false →
      (close s).state = s ∧ (close s).sent = [] ∧
      (close s).streamClosed = false ∧ (close s).cancelledResponse = false ∧
      (close s).cancelledAudio = false) := by
  refine ⟨?_, ?_, ?_, ?_, ?_, ?_⟩
  · simp [close]
  · simp [close, send_event]
  · simp [close]
  · simp [close]
  · simp [close]
  · intro h1 h2 h3 h4
    refine ⟨?_, ?_, ?_, ?_, ?_⟩
    · cases s
      simp_all [close]
    · simp [close, h1]
    · simp [close, h2]
    · simp [close, h3]
    · simp [close, h4]

/-- Witness for C6: a freshly constructed, never-started session closes
as a no-op, and a second close after closing the live session performs
no work. -/
theorem c6_close_idempotent_witness :
    (close (initSession [] "tiffany" "sys" "greet" "p-1" "a-1")).state =
      initSession [] "tiffany" "sys" "greet" "p-1" "a-1" ∧
    (close (initSession [] "tiffany" "sys" "greet" "p-1" "a-1")).sent = [] ∧
    (close (close liveSession).state).sent = [] ∧
    (close (close liveSession).state).streamClosed = false ∧
    (close (close liveSession).state).cancelledResponse = false := by
  have hfresh := c6_close_idempotent (initSession [] "tiffany" "sys" "greet" "p-1" "a-1")
  have hlive := c6_close_idempotent liveSession
  have hno := hfresh.2.2.2.2.2 rfl rfl rfl rfl
  exact ⟨hno.1, hno.2.1, hlive.2.1, hlive.2.2.1, hlive.2.2.2.1⟩

/-- While the session is active, queuing chunks through send_audio
appends their base64 encodings to the inbound queue in call order. -/
theorem send_audio_foldl (s : SessionState) (hact : s.isActive = true) :
    ∀ (chunks : List (List Nat)) (q : List String),
      chunks.foldl (send_audio s) q =
        q ++ chunks.map (fun c => String.mk (b64encode c)) := by
  intro chunks
  induction chunks with
  | nil => intro q; simp
  | cons c rest ih =>
      intro q
      simp [List.foldl_cons, send_audio, hact, ih]

/-- While the session is active with an open stream, the sender task
turns each queued encoding into one audioInput event, preserving
order. -/
theorem process_audio_queue_map (s : SessionState) (hact : s.isActive = true)
    (hstr : s.stream = true) :
    ∀ q : List String, process_audio_queue s q =
      q.map (fun b => ProtoEvent.audioInput s.promptName s.audioContentName b) := by
  intro q
  induction q with
  | nil => simp [process_audio_queue]
  | cons b rest ih => simp [process_audio_queue, hact, hstr, send_event, ih]

/-- C5: for every sequence of send_audio calls on an active session with
an open stream, the audioInput events written to the transport are
exactly the base64 encodings of the chunks, in FIFO call order. -/
theorem c5_audio_fifo (s : SessionState) (chunks : List (List Nat))
    (hact : s.isActive = true) (hstr : s.stream = true) :
    process_audio_queue s (chunks.foldl (send_audio s) []) =
      chunks.map (fun c =>
        ProtoEvent.audioInput s.promptName s.audioContentName
          (String.mk (b64encode c))) := by
  rw [send_audio_foldl s hact chunks [], List.nil_append,
    process_audio_queue_map s hact hstr, List.map_map]
  rfl

/-- Witness for C5 on two concrete chunks: both arrive, base64-encoded,
in call order. -/
theorem c5_audio_fifo_witness :
    process_audio_queue liveSession
        ([[1, 2, 3], [255, 0]].foldl (send_audio liveSession) []) =
      [ProtoEvent.audioInput "prompt-1" "audio-1" "AQID",
       ProtoEvent.audioInput "prompt-1" "audio-1" "/wA="] := by
  rw [c5_audio_fifo liveSession [[1, 2, 3], [255, 0]] rfl rfl]
  rfl

/-- A credential environment with the access key id unset. -/
def missingKeyCreds : Creds := ⟨"", "secret-key", ""⟩

/-- A freshly constructed session about to be started. -/
def startSession0 : SessionState :=
  initSession [] "tiffany" "sys" "greet" "p-start" "a-start"

/-- Counterexample to C8 as stated: with AWS_ACCESS_KEY_ID unset,
start() raises RuntimeError, not ConnectionError. -/
theorem c8_start_counterexample :
    start missingKeyCreds startSession0 =
      .error (.runtimeError
        "AWS_ACCESS_KEY_ID and AWS_SECRET_ACCESS_KEY must be set in .env or environment") ∧
    raisedConnectionErr (start missingKeyCreds startSession0) = false := by
  constructor <;> rfl

/-- C8 amended: when either AWS credential is unset or empty, start()
fails by raising RuntimeError before the transport stream is opened, the
session is activated, or the background tasks are started (the error
return carries no new state and no sent events). -/
theorem c8_start_requires_creds (creds : Creds) (s : SessionState)
    (h : creds.awsAccessKeyId = "" ∨ creds.awsSecretAccessKey = "") :
    start creds s = .error (.runtimeError
      "AWS_ACCESS_KEY_ID and AWS_SECRET_ACCESS_KEY must be set in .env or environment") := by
  unfold start
  rw [if_pos h]

/-- Witness for C8 amended at the concrete missing-key environment. -/
theorem c8_start_requires_creds_witness :
    start missingKeyCreds startSession0 =
      .error (.runtimeError
        "AWS_ACCESS_KEY_ID and AWS_SECRET_ACCESS_KEY must be set in .env or environment") :=
  c8_start_requires_creds missingKeyCreds startSession0 (Or.inl rfl)

end NovaSonic

namespace WebsocketHandler

/-- np.linspace always returns exactly num points. -/
theorem linspace_length (a b : ℚ) (num : Nat) :
    (linspace a b num).length = num := by
  unfold linspace
  split_ifs with h1 h2
  · simp [h1]
  · simp [h2]
  · rw [List.length_map, List.length_range]

/-- Counterexample to C7 as stated: resampling a zero-length buffer does
not yield a zero-length buffer; np.interp raises ValueError on the empty
sample-point array, modelled as none. -/
theorem c7_resample_empty_counterexample :
    resample_24k_to_16k [] = none := rfl

/-- C7 amended: resampling a non-empty buffer of N 16-bit samples from
24000 Hz to 16000 Hz succeeds and yields int(N * 16000 / 24000) samples,
which is the floor of the exact ratio and lies within one of
round(N * 16000 / 24000); the zero-length case raises instead of
returning an empty buffer. -/
theorem c7_resample_length (samples : List Int) (h : samples ≠ []) :
    (resample_24k_to_16k samples).isSome ∧
    ((resample_24k_to_16k samples).getD []).length =
      samples.length * 16000 / 24000 ∧
    (((resample_24k_to_16k samples).getD []).length : ℤ) =
      ⌊((samples.length : ℚ) * 16000 / 24000)⌋ ∧
    ⌊((samples.length : ℚ) * 16000 / 24000)⌋ ≤
      round ((samples.length : ℚ) * 16000 / 24000) ∧
    round ((samples.length : ℚ) * 16000 / 24000) ≤
      ⌊((samples.length : ℚ) * 16000 / 24000)⌋ + 1 := by
  have hn : samples.length ≠ 0 := by simpa [List.length_eq_zero] using h
  have hlen : ((resample_24k_to_16k samples).getD []).length =
      samples.length * 16000 / 24000 := by
    simp [resample_24k_to_16k, hn, linspace_length]
  refine ⟨by simp [resample_24k_to_16k, hn], hlen, ?_, ?_, ?_⟩
  · rw [hlen]
    have hq : ((samples.length : ℚ) * 16000 / 24000) =
        (((samples.length * 16000 : ℕ) : ℤ) : ℚ) / ((24000 : ℕ) : ℚ) := by
      push_cast
      ring
    rw [hq, Rat.floor_intCast_div_natCast]
    omega
  · rw [round_eq]
    exact Int.floor_le_floor (by linarith)
  · rw [round_eq]
    calc ⌊(samples.length : ℚ) * 16000 / 24000 + 1 / 2⌋
        ≤ ⌊(samples.length : ℚ) * 16000 / 24000 + 1⌋ :=
          Int.floor_le_floor (by linarith)
      _ = ⌊(samples.length : ℚ) * 16000 / 24000⌋ + 1 := Int.floor_add_one _

/-- Witness for C7 amended on a three-sample buffer: two output samples,
matching floor and round of 3 * 2/3 = 2. -/
theorem c7_resample_length_witness :
    (resample_24k_to_16k [10, 20, 30]).isSome ∧
    ((resample_24k_to_16k [10, 20, 30]).getD []).length = 2 :=
  have h := c7_resample_length [10, 20, 30] (by decide)
  ⟨h.1, h.2.1⟩

end WebsocketHandler
